import Mathlib

/-!
Shallow embedding of the HAIMEDA statement-similarity engine
(`statement_scoring.py` and `statement_worker_pool.py`).

Modelling conventions:
* Python floats are modelled as exact rationals (`ℚ`); Python `int(x)`
  (truncation toward zero) is `pyInt`.
* External collaborators (the sentence-transformer encoder, sklearn's
  cosine/TF-IDF, scipy distances, spaCy, langdetect, the platform and
  hardware probes) are opaque oracles collected in the `Env` structure:
  each oracle stands for the value the external call returns on the given
  texts, and `Option`/`Bool` fields model the call raising or the library
  being unavailable.  All repository-owned logic is translated directly
  from the source.
* Python's `str.lower`, `\w`-tokenization and `Char.isAlphanum` are
  modelled for the ASCII range; all concrete inputs used in theorems are
  ASCII.
* Python `set(...)` iteration order is unspecified; where the source
  builds a list from a set (`list(set(xs))`), the model fixes the
  first-seen order.  Only lengths and membership of those lists are used
  downstream.
* Exceptions that cross a function boundary are modelled with
  `Except String`; exceptions caught inside a function are folded into
  the branch the handler takes.
-/

/-- Python `int(x)`: truncation toward zero on a real (here rational) value. -/
def pyInt (x : ℚ) : ℤ := if 0 ≤ x then ⌊x⌋ else ⌈x⌉

/-- First-seen-order deduplication, accumulator version (Python
`dict.fromkeys` / the explicit `if s not in seen` loops). -/
def dedupFirstAux [DecidableEq α] (seen : List α) : List α → List α
  | [] => []
  | x :: xs => if x ∈ seen then dedupFirstAux seen xs else x :: dedupFirstAux (x :: seen) xs

/-- First-seen-order deduplication. -/
def dedupFirst [DecidableEq α] (l : List α) : List α := dedupFirstAux [] l

/-- Stable insertion of one element (helper for the stable sorts the
source performs with `sorted`/`list.sort`). -/
def insertSorted (le : α → α → Bool) (x : α) : List α → List α
  | [] => [x]
  | y :: ys => if le x y then x :: y :: ys else y :: insertSorted le x ys

/-- Stable insertion sort: with a reflexive-on-ties `le` this matches
Python's stable `sorted`. -/
def insertionSort (le : α → α → Bool) : List α → List α
  | [] => []
  | x :: xs => insertSorted le x (insertionSort le xs)

/-- Maximal runs of characters satisfying `p` (accumulator version, so the
definition is structural and evaluates in the kernel). -/
def runsAux (p : Char → Bool) : List Char → List Char → List (List Char)
  | [], acc => if acc.isEmpty then [] else [acc.reverse]
  | c :: cs, acc =>
    if p c then runsAux p cs (c :: acc)
    else if acc.isEmpty then runsAux p cs []
    else acc.reverse :: runsAux p cs []

/-- Maximal runs of characters satisfying `p`. -/
def wordRuns (p : Char → Bool) (cs : List Char) : List (List Char) := runsAux p cs []

/-- ASCII model of Python's `\w` character class. -/
def isWordChar (c : Char) : Bool := c.isAlphanum || c = '_'

/-- ASCII model of Python `str.lower()`. -/
def lowerStr (s : String) : String := String.mk (s.data.map Char.toLower)

/-- `simple_tokenize` (statement_scoring.py lines 472-479):
`re.findall(r"\b\w+\b", text.lower())`, i.e. the maximal word-character
runs of the lower-cased text. -/
def simple_tokenize (t : String) : List String :=
  (wordRuns isWordChar (t.data.map Char.toLower)).map (fun cs => String.mk cs)

/-- Python `str.split()` with no argument: whitespace-separated words. -/
def splitWs (s : String) : List String :=
  (wordRuns (fun c => !c.isWhitespace) s.data).map (fun cs => String.mk cs)

/-- Output of the opaque spaCy analysis of one text: named entities, noun
chunks and the POS/stop-word-filtered lemmas of lines 825-838, which the
repository code then post-processes. -/
structure SpacyDoc where
  ents : List String
  nounChunks : List String
  importantWords : List String
deriving DecidableEq

/-- Environment of oracles for the external collaborators, plus platform
facts.  Each field stands for the value the corresponding external call
returns; `Option`/`Bool` fields model the call raising. -/
structure Env where
  /-- cosine similarity of the encoder embeddings of two texts
  (`cosine_similarity`/`1 - spatial.distance.cosine` on `model.encode`). -/
  cos : String → String → ℚ
  /-- TF-IDF cosine similarity of the two raw texts; `none` models the
  vectorizer raising (e.g. empty vocabulary), handled by `except: 0`. -/
  tfidf : String → String → Option ℚ
  /-- Euclidean distance between the two embeddings. -/
  euclidD : String → String → ℚ
  /-- Manhattan (L1) distance between the two embeddings. -/
  manhattanD : String → String → ℚ
  /-- cosine similarity of the two length-weighted average domain vectors
  built in `get_domain_similarity`. -/
  domainCos : String → String → ℚ
  /-- cosine similarity of the embeddings of two keywords. -/
  kwCos : String → String → ℚ
  /-- whether `import spacy` succeeds. -/
  spacyAvailable : Bool
  /-- spaCy analysis of a text; `none` models the model load or the
  processing raising inside the guarded region. -/
  spacyDoc : String → Option SpacyDoc
  /-- spaCy content-word extraction in `get_domain_similarity`;
  `none` models that path raising (the code then falls back to
  `simple_tokenize` + length filter). -/
  spacyContent : String → Option (List String)
  /-- whether loading the sentence-transformer model and calling
  `model.encode` succeeds in `statement_scoring`. -/
  encodeOk : Bool
  /-- `detect_language` result (langdetect; its own failure already
  defaults to "de" inside the source). -/
  langTag : String → String
  /-- `sys.platform == "darwin"`. -/
  isDarwin : Bool
  /-- `os.cpu_count()`; `none` models `None`. -/
  cpuCount : Option Nat
  /-- parsed `nvidia-smi` rows `(memory.total, memory.used)` used by
  `determine_optimal_workers`; `none` models the subprocess or the
  parsing raising. -/
  nvidiaRows : Option (List (Int × Int))
  /-- whether `import torch` succeeded (`HAS_TORCH`). -/
  hasTorch : Bool
  /-- `torch.cuda.is_available()`. -/
  cudaAvailable : Bool
  /-- per-device `free_mb` contributions collected by `get_vram_info`
  (a device whose query failed contributes nothing). -/
  deviceFree : List Nat
  /-- an exception inside the `try` of `get_optimal_worker_count`. -/
  workerDetectRaises : Bool
  /-- whether the worker pool's `get_model` + batched encode succeed. -/
  modelLoadOk : Bool
  /-- a per-pair exception inside `process_with_embeddings`. -/
  embPairRaises : String → String → Bool

/-- Stop-word list of `extract_keywords` (lines 762-782). -/
def kwStopwords : List String :=
  ["und", "mit", "der", "die", "das", "ein", "eine", "the", "and",
   "ist", "zu", "von", "für", "des", "vom", "im", "of", "to", "in"]

/-- `Counter(...).most_common`: distinct words in first-seen order,
stably sorted by descending count. -/
def counterMostCommon (ws : List String) : List String :=
  insertionSort (fun a b => decide (ws.count b ≤ ws.count a)) (dedupFirst ws)

/-- `extract_keywords` (lines 751-798): tokenize, drop stop words and
words of length ≤ 2, rank by frequency, keep the 15 most common, return
the first 10.  Its own `except` can not fire in the model (the body is
total), matching the claim that this path never raises. -/
def extract_keywords (text : String) : List String :=
  let words := simple_tokenize text
  let filtered := words.filter (fun w => w ∉ kwStopwords ∧ 2 < w.length)
  ((counterMostCommon filtered).take 15).take 10

/-- `extract_keywords_spacy` (lines 801-866).  The `import spacy` on
line 803 sits before the `try`, so a missing spaCy module raises past the
function; every failure inside the `try` falls back to
`extract_keywords`.  `ensure_string` on a `str` is the identity.  The
`language` argument only selects which spaCy model is loaded and is
absorbed by the `spacyDoc` oracle. -/
def extract_keywords_spacy (E : Env) (text : String) (lang : String) :
    Except String (List String) :=
  let _ := lang
  if ¬ E.spacyAvailable then .error "No module named spacy"
  else .ok (match E.spacyDoc text with
    | none => extract_keywords text
    | some doc =>
        let filtered_chunks := doc.nounChunks.filter
          (fun c => 1 ≤ (splitWs c).length ∧ (splitWs c).length ≤ 3)
        let important :=
          (insertionSort (fun a b => decide (b.length ≤ a.length)) doc.importantWords).take 15
        let all := doc.ents ++ filtered_chunks ++ important
        (dedupFirst (all.map lowerStr)).take 10)

/-- `find_common_keywords` (lines 409-421): keep the entries of the first
list whose lower-cased form occurs (lower-cased) in the second list. -/
def find_common_keywords (k1 k2 : List String) : List String :=
  k1.filter (fun k => lowerStr k ∈ k2.map lowerStr)

/-- `list(set(k1).intersection(set(k2)))` with the model's canonical
first-seen order (Python set order is unspecified; only the length and
membership of this list are used downstream). -/
def intersectFirst (k1 k2 : List String) : List String :=
  (dedupFirst k1).filter (fun k => k ∈ k2)

/-- `get_interpretation` (lines 395-406): the five-label scheme. -/
def get_interpretation (score : ℤ) : String :=
  if score < 10 then "completely different"
  else if score < 25 then "mostly different"
  else if score < 50 then "somewhat similar"
  else if score < 75 then "very similar"
  else "nearly identical"

/-- `weighted_score` of `get_similarity_score` (line 456):
`transformer*0.3 + tfidf*0.7`, with the vectorizer failure already
defaulted to 0 (lines 449-453). -/
def weighted_score (E : Env) (s1 s2 : String) : ℚ :=
  E.cos s1 s2 * (3/10) + (E.tfidf s1 s2).getD 0 * (7/10)

/-- `get_similarity_score` (lines 438-468): the piecewise remap is applied
to `weighted_score = transformer*0.3 + tfidf*0.7`, not to the transformer
cosine alone.  The encode failure is modelled at the call sites. -/
def get_similarity_score (E : Env) (s1 s2 : String) : ℤ :=
  let w := weighted_score E s1 s2
  if w < 3/10 then pyInt (w * 40)
  else if w < 5/10 then pyInt (12 + (w - 3/10) * 140)
  else if w < 7/10 then pyInt (40 + (w - 5/10) * 150)
  else pyInt (70 + (w - 7/10) * 100)

/-- Content words of one text in `get_domain_similarity` (lines 626-664):
the spaCy extraction, or on its failure the `simple_tokenize` fallback
with the length-> 3 filter; then `list(set(...))[:20]` (first-seen order
in the model). -/
def domain_unique_words (E : Env) (t : String) : List String :=
  let content := match E.spacyContent t with
    | some ws => ws
    | none => (simple_tokenize t).filter (fun w => 3 < w.length)
  (dedupFirst content).take 20

/-- Common-domain vocabulary (lines 698-699). -/
def insuranceTerms : List String := ["schaden", "objekt", "kosten", "daten", "technisch"]

/-- Common-domain vocabulary (lines 698-699). -/
def techTerms : List String := ["module", "state", "input", "output"]

/-- The post-guard body of `get_domain_similarity` (lines 689-719):
stretch the domain-vector cosine, apply the common-domain penalty, and
clamp to [0, 100].  The word-importance weights only enter through the
`domainCos` oracle. -/
def domain_score_core (E : Env) (t1 t2 : String) : ℤ :=
  let dsim := E.domainCos t1 t2
  let base : ℤ := if dsim > 7/10 then pyInt ((dsim - 7/10) * 333) else pyInt (dsim * 70)
  let w1 := (domain_unique_words E t1).map lowerStr
  let w2 := (domain_unique_words E t2).map lowerStr
  let io1 : ℚ := ((insuranceTerms.filter (fun t => t ∈ w1)).length : ℚ) / insuranceTerms.length
  let io2 : ℚ := ((insuranceTerms.filter (fun t => t ∈ w2)).length : ℚ) / insuranceTerms.length
  let to1 : ℚ := ((techTerms.filter (fun t => t ∈ w1)).length : ℚ) / techTerms.length
  let to2 : ℚ := ((techTerms.filter (fun t => t ∈ w2)).length : ℚ) / techTerms.length
  let score : ℤ :=
    if (io1 > 2/10 ∧ io2 > 2/10) ∨ (to1 > 2/10 ∧ to2 > 2/10)
    then pyInt ((base : ℚ) * (7/10)) else base
  max 0 (min 100 score)

/-- `get_domain_similarity` (lines 620-723): the guard clause for empty
content-word lists, the encode failure caught by the outer handler, and
otherwise the core computation.  Any exception returns 0. -/
def get_domain_similarity (E : Env) (t1 t2 : String) : ℤ :=
  if (domain_unique_words E t1).isEmpty ∨ (domain_unique_words E t2).isEmpty then 0
  else if ¬ E.encodeOk then 0
  else domain_score_core E t1 t2

/-- `calculate_confidence` (lines 726-748): `np.var` is the population
variance. -/
def calculate_confidence (standard tfidfS euclidS manhattanS : ℤ) : ℤ :=
  let metrics : List ℚ := [(standard : ℚ), (tfidfS : ℚ), (euclidS : ℚ), (manhattanS : ℚ)]
  let mean := metrics.sum / 4
  let variance := (metrics.map (fun x => (x - mean) ^ 2)).sum / 4
  let agreement := 100 / (1 + variance)
  let extremity : ℚ := ((max standard (100 - standard) : ℤ) : ℚ) / 50
  let c := pyInt (agreement * (7/10) * extremity + ((100 - |standard - tfidfS| : ℤ) : ℚ))
  min 100 (max 0 c)

/-- The dictionary returned by `get_alternative_similarity_scores`; the
error fallback of lines 609-617 carries no `confidence` key, hence the
`Option`. -/
structure AltScores where
  standard : ℤ
  euclidS : ℤ
  manhattanS : ℤ
  tfidfS : ℤ
  domainS : ℤ
  combined : ℤ
  confidence : Option ℤ
deriving DecidableEq

/-- `get_alternative_similarity_scores` (lines 540-617).  A model-load or
encode failure takes the `except` branch: all scores 0 and no confidence
key. -/
def get_alternative_similarity_scores (E : Env) (s1 s2 : String) : AltScores :=
  if ¬ E.encodeOk then ⟨0, 0, 0, 0, 0, 0, none⟩
  else
    let standard := get_similarity_score E s1 s2
    let euclidS := pyInt (100 / (1 + E.euclidD s1 s2))
    let manhattanS := pyInt (100 / (1 + E.manhattanD s1 s2 * (1/10)))
    let tfidfS := pyInt ((E.tfidf s1 s2).getD 0 * 100)
    let domainS := get_domain_similarity E s1 s2
    let combined := pyInt ((5/10) * (standard : ℚ) + (3/10) * (tfidfS : ℚ)
      + (1/10) * (domainS : ℚ) + (1/10) * (euclidS : ℚ))
    ⟨standard, euclidS, manhattanS, tfidfS, domainS, combined,
      some (calculate_confidence standard tfidfS euclidS manhattanS)⟩

/-- The keyword-overlap percentage of `process_comparison_pair`
(lines 196-204). -/
def pair_overlap_percent (k1 k2 : List String) : ℤ :=
  if k1 ≠ [] ∧ k2 ≠ [] then
    min 100 (pyInt (((find_common_keywords k1 k2).length : ℚ)
      / ((max k1.length k2.length : ℕ) : ℚ) * 100))
  else 0

/-- The precomputed-embeddings table type of `process_comparison_pair`'s
unused third argument. -/
def EmbTable : Type := List (String × List ℚ)

/-- The result dictionary of `process_comparison_pair`.  The error
dictionary of lines 231-237 omits the overlap/metrics/keywords keys; the
model stores the defaults every consumer (`result.get(..., 0)` /
`.get(..., [])`) would read for them. -/
structure PairResult where
  err : Option String
  basic_score : ℤ
  combined_score : ℤ
  confidence : ℤ
  interpretation : String
  overlap_percent : ℤ
  m_tfidf : ℤ
  m_euclidean : ℤ
  m_manhattan : ℤ
  m_domain : ℤ
  kw1 : List String
  kw2 : List String
  kw_common : List String
deriving DecidableEq

/-- Error result of `process_comparison_pair` (lines 228-237). -/
def pairErrorResult (msg : String) : PairResult :=
  ⟨some msg, 0, 0, 0, "error", 0, 0, 0, 0, 0, [], [], []⟩

/-- `process_comparison_pair` (lines 163-237).  Line 175-178 reads the
`precomputed_embeddings` argument and does nothing with it (`pass`); the
scores are recomputed from scratch.  An exception from
`extract_keywords_spacy` (missing spaCy) is caught by the function's own
handler and becomes the error dictionary. -/
def process_comparison_pair (E : Env) (s1 s2 : String)
    (precomputed : Option EmbTable) : PairResult :=
  let _ := precomputed
  match extract_keywords_spacy E s1 "de", extract_keywords_spacy E s2 "de" with
  | .error e, _ => pairErrorResult e
  | .ok _, .error e => pairErrorResult e
  | .ok k1, .ok k2 =>
      let scores := get_alternative_similarity_scores E s1 s2
      let common := find_common_keywords k1 k2
      ⟨none, scores.standard, scores.combined, scores.confidence.getD 0,
        get_interpretation scores.combined, pair_overlap_percent k1 k2,
        scores.tfidfS, scores.euclidS, scores.manhattanS, scores.domainS,
        k1, k2, common⟩

/-- `detect_language` (lines 937-945); langdetect failure already defaults
to "de" inside the oracle. -/
def detect_language (E : Env) (t : String) : String := E.langTag t

/-- `extract_semantic_keywords` (lines 482-500): every failure (spaCy
import, encode) is caught and yields the empty keyword list; the keyword
embeddings are absorbed by the `kwCos` oracle. -/
def extract_semantic_keywords (E : Env) (t : String) (lang : String) : List String :=
  if ¬ E.encodeOk then []
  else match extract_keywords_spacy E t lang with
    | .ok k => k
    | .error _ => []

/-- Keyword stop-list of `find_semantic_keyword_overlap` (lines 517-524). -/
def semanticStopList : List String := ["und", "mit", "the", "des", "vom", "ist"]

/-- `find_semantic_keyword_overlap` (lines 503-537): all cross pairs of
keywords of length ≥ 3, neither on the stop-list, with embedding cosine
strictly above 0.85, stably sorted by descending similarity. -/
def find_semantic_keyword_overlap (E : Env) (k1s k2s : List String) :
    List (String × String × ℚ) :=
  let raw := (k1s.map (fun k1 =>
    if k1.length < 3 then []
    else k2s.filterMap (fun k2 =>
      if k2.length < 3 then none
      else if lowerStr k1 ∈ semanticStopList ∨ lowerStr k2 ∈ semanticStopList then none
      else if E.kwCos k1 k2 > 17/20 then some (k1, k2, E.kwCos k1 k2)
      else none))).flatten
  insertionSort (fun a b => decide (b.2.2 ≤ a.2.2)) raw

/-- Result of `compare_statements`; `matches` is the semantic-match list
before the display formatting of line 897 (presentation only). -/
structure CompareOut where
  similarity_score : ℤ
  keywords1 : List String
  keywords2 : List String
  keyword_overlap_percent : ℤ
  semMatches : List (String × String × ℚ)
  combined_score : ℤ
  confidence : ℤ
  interpretation : String
deriving DecidableEq

/-- `compare_statements` (lines 869-934).  An encode failure raises out of
`get_similarity_score` into the function's own handler; when both keyword
lists are empty, `max(len, len)` is 0 and line 903 raises
`ZeroDivisionError`, also caught by the handler, which returns the error
tuple. -/
def compare_statements (E : Env) (s1 s2 : String) : Except String CompareOut :=
  if ¬ E.encodeOk then .error "model encode failed"
  else
    let score := get_similarity_score E s1 s2
    let alt := get_alternative_similarity_scores E s1 s2
    let k1 := extract_semantic_keywords E s1 (detect_language E s1)
    let k2 := extract_semantic_keywords E s2 (detect_language E s2)
    let ms := find_semantic_keyword_overlap E k1 k2
    if max k1.length k2.length = 0 then .error "division by zero"
    else
      let overlap := min 100 (pyInt ((ms.length : ℚ)
        / ((max k1.length k2.length : ℕ) : ℚ) * 100))
      let combined := alt.combined
      let conf := alt.confidence.getD 80
      let interp :=
        if combined < 10 then "completely different"
        else if combined < 25 then "mostly different"
        else if combined < 50 then "somewhat similar"
        else if combined < 75 then "very similar"
        else "nearly identical"
      .ok ⟨score, k1, k2, overlap, ms, combined, conf, interp⟩

/-- Stop-word set of the local `extract_keywords` inside
`process_comparison_with_embeddings` (lines 269-283). -/
def localStopwords : List String :=
  ["und", "der", "die", "das", "ein", "eine", "zu", "in", "ist", "es", "für", "von", "wird"]

/-- The local `extract_keywords` of `process_comparison_with_embeddings`
(lines 262-285): replace non-word non-space characters by spaces,
lower-case, split, keep words of length > 2 off the stop-word set.  The
resulting tokens are exactly the maximal word-character runs. -/
def local_extract_keywords (t : String) : List String :=
  (simple_tokenize t).filter (fun w => 2 < w.length ∧ w ∉ localStopwords)

/-- Result dictionary of `process_comparison_with_embeddings`. -/
structure EmbResult where
  statement1 : String
  statement2 : String
  basic_score : ℤ
  combined_score : ℤ
  confidence : ℤ
  interpretation : String
  overlap_percent : ℤ
  m_tfidf : ℤ
  m_euclidean : ℤ
  m_manhattan : ℤ
  m_domain : ℤ
  kw1 : List String
  kw2 : List String
  kw_common : List String
deriving DecidableEq

/-- The keyword-overlap percentage of `process_comparison_with_embeddings`
(lines 295-304): the denominator is `len(keywords2)`, not the max. -/
def emb_overlap_percent (k1 k2 : List String) : ℤ :=
  if k1 ≠ [] ∧ k2 ≠ [] then
    if k2 ≠ [] then pyInt (((intersectFirst k1 k2).length : ℚ) / (k2.length : ℚ) * 100)
    else 0
  else 0

/-- `process_comparison_with_embeddings` (lines 249-392), using the
embeddings the caller precomputed (so the distance/cosine oracles are
keyed by the texts).  `ensure_string` on strings is the identity. -/
def process_comparison_with_embeddings (E : Env) (s1 s2 : String) : EmbResult :=
  let k1 := local_extract_keywords s1
  let k2 := local_extract_keywords s2
  let common := if k1 ≠ [] ∧ k2 ≠ [] then intersectFirst k1 k2 else []
  let overlap := emb_overlap_percent k1 k2
  let cosine_score := pyInt (E.cos s1 s2 * 100)
  let tfidfS := pyInt ((E.tfidf s1 s2).getD 0 * 100)
  let euclidS := pyInt ((1 - min (E.euclidD s1 s2 / 2) 1) * 100)
  let manhattanS := pyInt ((1 - min (E.manhattanD s1 s2 / 10) 1) * 100)
  let domainS := pyInt ((cosine_score : ℚ) * (5/10) + (overlap : ℚ) * (5/10))
  let basic := pyInt ((cosine_score : ℚ) * (7/10) + (tfidfS : ℚ) * (3/10))
  let bonus : ℤ := min 15 (overlap / 10 * 3)
  let combined := min 100 (basic + bonus)
  let conf := pyInt (min 100 (50 + ((cosine_score : ℚ) - 50) * (7/10) + (overlap : ℚ) * (3/10)))
  let interp :=
    if combined ≥ 80 then "strong_match"
    else if combined ≥ 60 then "moderate_match"
    else if combined ≥ 40 then "weak_match"
    else "no_match"
  ⟨s1, s2, basic, combined, conf, interp, overlap,
    tfidfS, euclidS, manhattanS, domainS, k1, k2, common⟩

/-- Outcome of one pair inside `process_batch_parallel`: the result of
`process_comparison_with_embeddings`, or the zero placeholder dictionary
built by `process_with_embeddings`' own handler (lines 513-531). -/
inductive PairOutcome where
  | ok (r : EmbResult)
  | errored (msg : String)
deriving DecidableEq

/-- `process_batch_parallel` (worker pool lines 428-580).  The dedup loop
and the single batched encode happen first; a model-load/encode failure
there raises out of the function (only the per-pair work is guarded).
Completion order is reordered by original index (`results[idx] = result`),
so the output order is the input order. -/
def process_batch_parallel (E : Env) (pairs : List (String × String)) :
    Except String (List PairOutcome) :=
  if ¬ E.modelLoadOk then .error "embedding precompute failed"
  else .ok (pairs.map (fun p =>
    if E.embPairRaises p.1 p.2 then .errored "pair processing failed"
    else .ok (process_comparison_with_embeddings E p.1 p.2)))

/-- The unique-statement universe built by `process_batch_parallel`
(lines 447-457): first-seen order over the pair texts; this list is the
argument of the single `model.encode` call on line 468. -/
def unique_statements (pairs : List (String × String)) : List String :=
  dedupFirst (pairs.flatMap (fun p => [p.1, p.2]))

/-- The entry formatted by `process_batch` for one pair (lines 256-340).
`none` models `i >= len(results)` or a `None` slot, which takes the
"No result produced" default of lines 262-271. -/
structure FormattedResult where
  statement1 : String
  statement2 : String
  basic_score : ℤ
  combined_score : ℤ
  confidence : ℤ
  interpretation : String
  overlap_percent : ℤ
  tfidf_similarity : ℤ
  euclidean_similarity : ℤ
  manhattan_similarity : ℤ
  domain_similarity : ℤ
  keywords1 : List String
  keywords2 : List String
  common_keywords : List String
deriving DecidableEq

/-- Formatting of one slot in `process_batch`'s output loop.  A successful
embedding result exposes its metrics and keywords through the nested
dictionaries; a per-pair placeholder exposes them through the flat keys;
both `.get` chains are mirrored here. -/
def formatOutcome (p : String × String) (o : Option PairOutcome) : FormattedResult :=
  match o with
  | some (.ok r) =>
      ⟨p.1, p.2, r.basic_score, r.combined_score, r.confidence, r.interpretation,
        r.overlap_percent, r.m_tfidf, r.m_euclidean, r.m_manhattan, r.m_domain,
        r.kw1, r.kw2, r.kw_common⟩
  | some (.errored _) =>
      ⟨p.1, p.2, 0, 0, 0, "error", 0, 0, 0, 0, 0, [], [], []⟩
  | none =>
      ⟨p.1, p.2, 0, 0, 0, "error", 0, 0, 0, 0, 0, [], [], []⟩

/-- The output-formatting loop of `process_batch` (lines 256-341). -/
def formatResults (pairs : List (String × String)) (rs : List PairOutcome) :
    List FormattedResult :=
  (List.range pairs.length).map (fun i => formatOutcome (pairs.getD i ("", "")) rs[i]?)

/-- The message of the `UnboundLocalError` Python raises when the
formatting loop reads the never-assigned `results` variable. -/
def unboundLocalMsg : String :=
  "UnboundLocalError: local variable results referenced before assignment"

/-- `process_batch` (worker pool lines 196-347), the batch entry point.
When torch is missing, or when `process_batch_parallel` raises, the code
only prints a fallback message (lines 224-230) and never assigns
`results` nor calls `process_batch_sequential`; the formatting loop then
raises `UnboundLocalError` on its first iteration (line 261), past the
function boundary, whenever the batch is non-empty. -/
def process_batch (E : Env) (pairs : List (String × String)) :
    Except String (List FormattedResult) :=
  if E.hasTorch then
    match process_batch_parallel E pairs with
    | .ok rs => .ok (formatResults pairs rs)
    | .error _ => if pairs.isEmpty then .ok [] else .error unboundLocalMsg
  else
    if pairs.isEmpty then .ok [] else .error unboundLocalMsg

/-- `process_batch_sequential` (worker pool lines 350-384): one pair at a
time through `process_comparison_pair`, with a gc/cache flush every 20
pairs (invisible to the result value); a per-pair exception becomes the
placeholder of lines 373-381.  No caller in the repository invokes it. -/
def process_batch_sequential (E : Env) (pairs : List (String × String)) :
    List PairResult :=
  pairs.map (fun p => process_comparison_pair E p.1 p.2 none)

/-- The statements encoded by the precompute loop of
`compare_all_statements` (lines 49-58): the concatenation of the input
and output statement lists, duplicates included (the chunking into
sub-batches of 32 only groups the same texts into fewer calls). -/
def compare_all_precompute_texts (inputs outputs : List String) : List String :=
  inputs ++ outputs

/-- The statements encoded while `process_comparison_pair` scores one pair
(success path): `model.encode([s1, s2])` in
`get_alternative_similarity_scores` (line 547), again in
`get_similarity_score` (line 440), and the two content-word batches of
`get_domain_similarity` (lines 674-675, skipped when either list is
empty). -/
def pair_scoring_encode_texts (E : Env) (s1 s2 : String) : List String :=
  let uw1 := domain_unique_words E s1
  let uw2 := domain_unique_words E s2
  [s1, s2] ++ [s1, s2] ++ (if uw1.isEmpty ∨ uw2.isEmpty then [] else uw1 ++ uw2)

/-- All texts `compare_all_statements` passes to `model.encode` for a
batch (as a multiset; thread interleaving only permutes them): the
precompute loop plus the per-pair re-encoding that
`process_comparison_pair` performs because it ignores the precomputed
table. -/
def compare_all_encode_texts (E : Env) (inputs outputs : List String) : List String :=
  compare_all_precompute_texts inputs outputs
    ++ ((inputs.flatMap (fun i => outputs.map (fun o => (i, o)))).flatMap
        (fun p => pair_scoring_encode_texts E p.1 p.2))

/-- `os.cpu_count() or 4`: `None` and 0 are falsy. -/
def cpuOr4 (E : Env) : ℤ :=
  match E.cpuCount with
  | none => 4
  | some n => if n = 0 then 4 else (n : ℤ)

/-- `determine_optimal_workers` (statement_scoring.py lines 105-160).  On
macOS: `max(1, cpu-1)`, unclamped above.  Otherwise the `nvidia-smi`
query: any exception gives 4; an empty row list gives 4; else the VRAM
formula clamped to `[1, 16]`. -/
def determine_optimal_workers (E : Env) : ℤ :=
  if E.isDarwin then max 1 (cpuOr4 E - 1)
  else
    match E.nvidiaRows with
    | none => 4
    | some rows =>
        if rows.isEmpty then 4
        else
          let totalAvailable : ℤ := (rows.map (fun r => r.1 - r.2)).sum
          let workers := pyInt ((totalAvailable : ℚ) * (8/10) / 1024)
          max 1 (min 16 workers)

/-- The `total_free_mb` field `get_vram_info` reports (worker pool
lines 22-99): 0 through the `.get(..., 0)` default when the info is the
unavailable sentinel, else the per-device sum. -/
def get_vram_total_free (E : Env) : ℤ :=
  if E.isDarwin ∨ ¬ E.hasTorch ∨ ¬ E.cudaAvailable then 0
  else ((E.deviceFree.map (fun n => (n : ℤ))).sum)

/-- `VRAM_PER_WORKER` (worker pool line 19). -/
def VRAM_PER_WORKER : ℚ := 200

/-- `get_optimal_worker_count` (worker pool lines 102-162): macOS and
missing-torch paths return `max(1, cpu-1)` unclamped; the CUDA/VRAM path
is capped at 16; an exception inside the `try` returns 2. -/
def get_optimal_worker_count (E : Env) : ℤ :=
  if E.isDarwin then max 1 (cpuOr4 E - 1)
  else if ¬ E.hasTorch then max 1 (cpuOr4 E - 1)
  else if E.workerDetectRaises then 2
  else if E.cudaAvailable then
    let free := get_vram_total_free E
    if 0 < free then
      let usable : ℚ := (free : ℚ) * (8/10)
      let vramWorkers := max 1 (pyInt (usable / VRAM_PER_WORKER))
      let cpuWorkers := max 1 (cpuOr4 E - 1)
      min (min vramWorkers cpuWorkers) 16
    else max 1 (cpuOr4 E - 1)
  else max 1 (cpuOr4 E - 1)

/-- A neutral oracle environment; the concrete environments below
override individual fields. -/
def baseEnv : Env where
  cos := fun _ _ => 0
  tfidf := fun _ _ => some 0
  euclidD := fun _ _ => 0
  manhattanD := fun _ _ => 0
  domainCos := fun _ _ => 0
  kwCos := fun _ _ => 0
  spacyAvailable := true
  spacyDoc := fun _ => none
  spacyContent := fun _ => none
  encodeOk := true
  langTag := fun _ => "de"
  isDarwin := false
  cpuCount := some 4
  nvidiaRows := none
  hasTorch := true
  cudaAvailable := false
  deviceFree := []
  workerDetectRaises := false
  modelLoadOk := true
  embPairRaises := fun _ _ => false

/-- Platform condition with torch absent (`HAS_TORCH = False`). -/
def envNoTorch : Env := { baseEnv with hasTorch := false }

/-- Platform with torch present but the parallel pooling setup (model
load / batched encode) failing. -/
def envPoolFail : Env := { baseEnv with modelLoadOk := false }

/-- macOS host with 32 CPU cores. -/
def envMac32 : Env := { baseEnv with isDarwin := true, cpuCount := some 32 }

/-- An encoder mapping the two compared texts to opposite vectors
(cosine −1, distance 2 in both metrics), with lexically disjoint texts
(TF-IDF cosine 0) and spaCy extracting no content words. -/
def envNegCos : Env :=
  { baseEnv with
    cos := fun _ _ => -1
    tfidf := fun _ _ => some 0
    euclidD := fun _ _ => 2
    manhattanD := fun _ _ => 2
    spacyContent := fun _ => some [] }

/-- An encoder giving the two compared texts cosine similarity 1 while
their TF-IDF cosine is 0 (lexically disjoint texts). -/
def envHighCos : Env :=
  { baseEnv with cos := fun _ _ => 1, tfidf := fun _ _ => some 0 }

/-- Environment for the deduplication counting: spaCy finds no content
words, so `get_domain_similarity` encodes nothing. -/
def envDedup : Env := { baseEnv with spacyContent := fun _ => some [] }

/-- Environment with the spaCy module missing (`import spacy` raises). -/
def envNoSpacy : Env := { baseEnv with spacyAvailable := false }

/-- A fixed encoder, as in the self-similarity scenario: identical texts
get identical embeddings, so every self-cosine is 1 and every
self-distance is 0; spaCy processing fails, so keyword extraction uses
the frequency fallback and domain extraction uses the tokenizer
fallback. -/
def envSelf : Env :=
  { baseEnv with
    cos := fun _ _ => 1
    tfidf := fun _ _ => some 1
    domainCos := fun _ _ => 1
    kwCos := fun _ _ => 1 }

theorem ceil_nonpos_of_nonpos {x : ℚ} (h : x ≤ 0) : ⌈x⌉ ≤ 0 := by
  have hc : ⌈x⌉ ≤ (0 : ℤ) := Int.ceil_le.mpr (by exact_mod_cast h)
  exact hc

theorem pyInt_mono {a b : ℚ} (h : a ≤ b) : pyInt a ≤ pyInt b := by
  unfold pyInt
  by_cases ha : 0 ≤ a
  · rw [if_pos ha, if_pos (le_trans ha h)]
    exact Int.floor_le_floor h
  · rw [if_neg ha]
    by_cases hb : 0 ≤ b
    · rw [if_pos hb]
      exact le_trans (ceil_nonpos_of_nonpos (le_of_not_le ha)) (Int.floor_nonneg.mpr hb)
    · rw [if_neg hb]
      exact Int.ceil_le_ceil h

theorem le_pyInt {n : ℤ} {x : ℚ} (h : (n : ℚ) ≤ x) : n ≤ pyInt x := by
  unfold pyInt
  by_cases hx : 0 ≤ x
  · rw [if_pos hx]
    exact Int.le_floor.mpr h
  · rw [if_neg hx]
    have hc : (n : ℚ) ≤ (⌈x⌉ : ℚ) := le_trans h (Int.le_ceil x)
    exact_mod_cast hc

theorem pyInt_le {n : ℤ} {x : ℚ} (h : x ≤ (n : ℚ)) (hn : 0 ≤ n) : pyInt x ≤ n := by
  unfold pyInt
  by_cases hx : 0 ≤ x
  · rw [if_pos hx]
    have hc : (⌊x⌋ : ℚ) ≤ (n : ℚ) := le_trans (Int.floor_le x) h
    exact_mod_cast hc
  · rw [if_neg hx]
    exact le_trans (ceil_nonpos_of_nonpos (le_of_not_le hx)) hn

theorem pyInt_lt {n : ℤ} {x : ℚ} (h : x < (n : ℚ)) (hn : 0 < n) : pyInt x < n := by
  unfold pyInt
  by_cases hx : 0 ≤ x
  · rw [if_pos hx]
    exact Int.floor_lt.mpr h
  · rw [if_neg hx]
    exact lt_of_le_of_lt (ceil_nonpos_of_nonpos (le_of_not_le hx)) hn

theorem pyInt_intCast (n : ℤ) : pyInt (n : ℚ) = n := by
  unfold pyInt
  by_cases h : 0 ≤ (n : ℚ)
  · rw [if_pos h, Int.floor_intCast]
  · rw [if_neg h, Int.ceil_intCast]

theorem pyInt_nonneg {x : ℚ} (h : 0 ≤ x) : 0 ≤ pyInt x :=
  le_pyInt (by exact_mod_cast h)

theorem count_dedupFirstAux [DecidableEq α] (t : α) :
    ∀ (l seen : List α),
      (dedupFirstAux seen l).count t = if t ∈ l ∧ t ∉ seen then 1 else 0
  | [], seen => by simp [dedupFirstAux]
  | x :: xs, seen => by
    rw [dedupFirstAux]
    by_cases hx : x ∈ seen
    · rw [if_pos hx, count_dedupFirstAux t xs seen]
      rcases eq_or_ne t x with rfl | hne
      · simp [hx]
      · simp [List.mem_cons, hne]
    · rw [if_neg hx, List.count_cons, count_dedupFirstAux t xs (x :: seen)]
      rcases eq_or_ne t x with rfl | hne
      · simp [hx, List.mem_cons]
      · simp [List.mem_cons, hne, Ne.symm hne]

theorem count_dedupFirst [DecidableEq α] (l : List α) (t : α) :
    (dedupFirst l).count t = if t ∈ l then 1 else 0 := by
  rw [dedupFirst, count_dedupFirstAux]
  simp

theorem length_insertSorted (le : α → α → Bool) (x : α) :
    ∀ l : List α, (insertSorted le x l).length = l.length + 1
  | [] => rfl
  | y :: ys => by
    rw [insertSorted]
    cases h : le x y
    · simp only [Bool.false_eq_true, if_false, List.length_cons,
        length_insertSorted le x ys]
    · simp [h]

theorem length_insertionSort (le : α → α → Bool) :
    ∀ l : List α, (insertionSort le l).length = l.length
  | [] => rfl
  | x :: xs => by
    rw [insertionSort, length_insertSorted, length_insertionSort le xs,
      List.length_cons]

theorem length_le_sum : ∀ {ns : List ℕ}, (∀ n ∈ ns, 1 ≤ n) → ns.length ≤ ns.sum
  | [], _ => le_refl 0
  | n :: ns, h => by
    have h1 := h n (List.mem_cons_self n ns)
    have h2 := length_le_sum (fun m hm => h m (List.mem_cons_of_mem n hm))
    simp only [List.length_cons, List.sum_cons]
    omega

theorem domain_score_core_nonneg (E : Env) (t1 t2 : String) :
    0 ≤ domain_score_core E t1 t2 := le_max_left 0 _

theorem domain_score_core_le_100 (E : Env) (t1 t2 : String) :
    domain_score_core E t1 t2 ≤ 100 :=
  max_le (by norm_num) (min_le_left 100 _)

theorem get_domain_similarity_nonneg (E : Env) (t1 t2 : String) :
    0 ≤ get_domain_similarity E t1 t2 := by
  rw [get_domain_similarity]
  split
  · exact le_refl 0
  · split
    · exact le_refl 0
    · exact domain_score_core_nonneg E t1 t2

theorem get_domain_similarity_le_100 (E : Env) (t1 t2 : String) :
    get_domain_similarity E t1 t2 ≤ 100 := by
  rw [get_domain_similarity]
  split
  · norm_num
  · split
    · norm_num
    · exact domain_score_core_le_100 E t1 t2

theorem pyInt_eq_floor_cond {x : ℚ} {z : ℤ} (h1 : 0 ≤ x) (h2 : (z : ℚ) ≤ x)
    (h3 : x < (z : ℚ) + 1) : pyInt x = z := by
  rw [pyInt, if_pos h1]
  exact Int.floor_eq_iff.mpr ⟨h2, h3⟩

theorem pyInt_eq_ceil_cond {x : ℚ} {z : ℤ} (h1 : ¬ 0 ≤ x) (h2 : (z : ℚ) - 1 < x)
    (h3 : x ≤ (z : ℚ)) : pyInt x = z := by
  rw [pyInt, if_neg h1]
  exact Int.ceil_eq_iff.mpr ⟨h2, h3⟩

theorem pyInt_div_nat (c m : ℕ) :
    pyInt ((c : ℚ) / (m : ℚ) * 100) = ((c * 100 : ℕ) : ℤ) / ((m : ℕ) : ℤ) := by
  have hq : ((c : ℚ) / (m : ℚ) * 100) = (((c * 100 : ℕ) : ℤ) : ℚ) / ((m : ℕ) : ℚ) := by
    push_cast
    ring
  rw [pyInt, if_pos (by positivity), hq, Rat.floor_intCast_div_natCast]

/-- Unfolding of `get_alternative_similarity_scores` on the success path. -/
theorem alt_scores_eval (E : Env) (s1 s2 : String) (hE : E.encodeOk = true) :
    get_alternative_similarity_scores E s1 s2 =
      { standard := get_similarity_score E s1 s2
        euclidS := pyInt (100 / (1 + E.euclidD s1 s2))
        manhattanS := pyInt (100 / (1 + E.manhattanD s1 s2 * (1/10)))
        tfidfS := pyInt ((E.tfidf s1 s2).getD 0 * 100)
        domainS := get_domain_similarity E s1 s2
        combined := pyInt ((5/10) * ((get_similarity_score E s1 s2 : ℤ) : ℚ)
          + (3/10) * ((pyInt ((E.tfidf s1 s2).getD 0 * 100) : ℤ) : ℚ)
          + (1/10) * ((get_domain_similarity E s1 s2 : ℤ) : ℚ)
          + (1/10) * ((pyInt (100 / (1 + E.euclidD s1 s2)) : ℤ) : ℚ))
        confidence := some (calculate_confidence (get_similarity_score E s1 s2)
          (pyInt ((E.tfidf s1 s2).getD 0 * 100))
          (pyInt (100 / (1 + E.euclidD s1 s2)))
          (pyInt (100 / (1 + E.manhattanD s1 s2 * (1/10))))) } := by
  rw [get_alternative_similarity_scores, if_neg (by simp [hE])]

/-- Unfolding of `process_comparison_pair` when keyword extraction
succeeds on both statements. -/
theorem process_pair_eval (E : Env) (s1 s2 : String) (pre : Option EmbTable)
    (k1 k2 : List String)
    (h1 : extract_keywords_spacy E s1 "de" = .ok k1)
    (h2 : extract_keywords_spacy E s2 "de" = .ok k2) :
    process_comparison_pair E s1 s2 pre =
      ⟨none, (get_alternative_similarity_scores E s1 s2).standard,
        (get_alternative_similarity_scores E s1 s2).combined,
        (get_alternative_similarity_scores E s1 s2).confidence.getD 0,
        get_interpretation (get_alternative_similarity_scores E s1 s2).combined,
        pair_overlap_percent k1 k2,
        (get_alternative_similarity_scores E s1 s2).tfidfS,
        (get_alternative_similarity_scores E s1 s2).euclidS,
        (get_alternative_similarity_scores E s1 s2).manhattanS,
        (get_alternative_similarity_scores E s1 s2).domainS,
        k1, k2, find_common_keywords k1 k2⟩ := by
  rw [process_comparison_pair, h1, h2]

/-- Unfolding of `compare_statements` on the success path. -/
theorem compare_statements_eval (E : Env) (s1 s2 : String) (hE : E.encodeOk = true)
    (hmx : ¬ max (extract_semantic_keywords E s1 (detect_language E s1)).length
        (extract_semantic_keywords E s2 (detect_language E s2)).length = 0) :
    compare_statements E s1 s2 =
      .ok { similarity_score := get_similarity_score E s1 s2
            keywords1 := extract_semantic_keywords E s1 (detect_language E s1)
            keywords2 := extract_semantic_keywords E s2 (detect_language E s2)
            keyword_overlap_percent := min 100 (pyInt
              (((find_semantic_keyword_overlap E
                  (extract_semantic_keywords E s1 (detect_language E s1))
                  (extract_semantic_keywords E s2 (detect_language E s2))).length : ℚ)
                / ((max (extract_semantic_keywords E s1 (detect_language E s1)).length
                    (extract_semantic_keywords E s2 (detect_language E s2)).length : ℕ) : ℚ)
                * 100))
            semMatches := find_semantic_keyword_overlap E
              (extract_semantic_keywords E s1 (detect_language E s1))
              (extract_semantic_keywords E s2 (detect_language E s2))
            combined_score := (get_alternative_similarity_scores E s1 s2).combined
            confidence := (get_alternative_similarity_scores E s1 s2).confidence.getD 80
            interpretation :=
              if (get_alternative_similarity_scores E s1 s2).combined < 10 then
                "completely different"
              else if (get_alternative_similarity_scores E s1 s2).combined < 25 then
                "mostly different"
              else if (get_alternative_similarity_scores E s1 s2).combined < 50 then
                "somewhat similar"
              else if (get_alternative_similarity_scores E s1 s2).combined < 75 then
                "very similar"
              else "nearly identical" } := by
  rw [compare_statements, if_neg (by simp [hE]), if_neg hmx]

theorem standard_score_bounds (E : Env) (s1 s2 : String)
    (hc1 : -1 ≤ E.cos s1 s2) (hc2 : E.cos s1 s2 ≤ 1)
    (ht1 : 0 ≤ (E.tfidf s1 s2).getD 0) (ht2 : (E.tfidf s1 s2).getD 0 ≤ 1) :
    -12 ≤ get_similarity_score E s1 s2 ∧ get_similarity_score E s1 s2 ≤ 100 := by
  have hw1 : -(3/10) ≤ weighted_score E s1 s2 := by
    rw [weighted_score]
    nlinarith
  have hw2 : weighted_score E s1 s2 ≤ 1 := by
    rw [weighted_score]
    nlinarith
  rw [get_similarity_score]
  split_ifs with h1 h2 h3
  · constructor
    · exact le_pyInt (by push_cast; nlinarith)
    · exact pyInt_le (by push_cast; nlinarith) (by norm_num)
  · constructor
    · exact le_pyInt (by push_cast; nlinarith [not_lt.mp h1])
    · exact pyInt_le (by push_cast; nlinarith [h2]) (by norm_num)
  · constructor
    · exact le_pyInt (by push_cast; nlinarith [not_lt.mp h2])
    · exact pyInt_le (by push_cast; nlinarith [h3]) (by norm_num)
  · constructor
    · exact le_pyInt (by push_cast; nlinarith [not_lt.mp h3])
    · exact pyInt_le (by push_cast; nlinarith) (by norm_num)

theorem euclid_sim_bounds (E : Env) (s1 s2 : String) (hd : 0 ≤ E.euclidD s1 s2) :
    0 ≤ pyInt (100 / (1 + E.euclidD s1 s2)) ∧
      pyInt (100 / (1 + E.euclidD s1 s2)) ≤ 100 := by
  have hpos : (0 : ℚ) < 1 + E.euclidD s1 s2 := by linarith
  constructor
  · exact pyInt_nonneg (by positivity)
  · refine pyInt_le ?_ (by norm_num)
    rw [div_le_iff₀ hpos]
    push_cast
    nlinarith

theorem tfidf_sim_bounds (E : Env) (s1 s2 : String)
    (ht1 : 0 ≤ (E.tfidf s1 s2).getD 0) (ht2 : (E.tfidf s1 s2).getD 0 ≤ 1) :
    0 ≤ pyInt ((E.tfidf s1 s2).getD 0 * 100) ∧
      pyInt ((E.tfidf s1 s2).getD 0 * 100) ≤ 100 := by
  constructor
  · exact pyInt_nonneg (by nlinarith)
  · exact pyInt_le (by push_cast; nlinarith) (by norm_num)

theorem calculate_confidence_bounds (a b c d : ℤ) :
    0 ≤ calculate_confidence a b c d ∧ calculate_confidence a b c d ≤ 100 := by
  rw [calculate_confidence]
  exact ⟨le_min (by norm_num) (le_max_left 0 _), min_le_left 100 _⟩

theorem alt_combined_bounds (E : Env) (s1 s2 : String)
    (hc1 : -1 ≤ E.cos s1 s2) (hc2 : E.cos s1 s2 ≤ 1)
    (ht1 : 0 ≤ (E.tfidf s1 s2).getD 0) (ht2 : (E.tfidf s1 s2).getD 0 ≤ 1)
    (hd : 0 ≤ E.euclidD s1 s2) :
    -6 ≤ (get_alternative_similarity_scores E s1 s2).combined ∧
      (get_alternative_similarity_scores E s1 s2).combined ≤ 100 := by
  by_cases hE : E.encodeOk
  · rw [alt_scores_eval E s1 s2 hE]
    have hs := standard_score_bounds E s1 s2 hc1 hc2 ht1 ht2
    have he := euclid_sim_bounds E s1 s2 hd
    have ht := tfidf_sim_bounds E s1 s2 ht1 ht2
    have hdo1 := get_domain_similarity_nonneg E s1 s2
    have hdo2 := get_domain_similarity_le_100 E s1 s2
    constructor
    · refine le_pyInt ?_
      push_cast
      have hs1 : ((-12 : ℤ) : ℚ) ≤ ((get_similarity_score E s1 s2 : ℤ) : ℚ) := by
        exact_mod_cast hs.1
      have ht1q : ((0 : ℤ) : ℚ) ≤ ((pyInt ((E.tfidf s1 s2).getD 0 * 100) : ℤ) : ℚ) := by
        exact_mod_cast ht.1
      have hd1q : ((0 : ℤ) : ℚ) ≤ ((get_domain_similarity E s1 s2 : ℤ) : ℚ) := by
        exact_mod_cast hdo1
      have he1q : ((0 : ℤ) : ℚ) ≤ ((pyInt (100 / (1 + E.euclidD s1 s2)) : ℤ) : ℚ) := by
        exact_mod_cast he.1
      push_cast at hs1 ht1q hd1q he1q
      nlinarith
    · refine pyInt_le ?_ (by norm_num)
      have hs2 : ((get_similarity_score E s1 s2 : ℤ) : ℚ) ≤ ((100 : ℤ) : ℚ) := by
        exact_mod_cast hs.2
      have ht2q : ((pyInt ((E.tfidf s1 s2).getD 0 * 100) : ℤ) : ℚ) ≤ ((100 : ℤ) : ℚ) := by
        exact_mod_cast ht.2
      have hd2q : ((get_domain_similarity E s1 s2 : ℤ) : ℚ) ≤ ((100 : ℤ) : ℚ) := by
        exact_mod_cast hdo2
      have he2q : ((pyInt (100 / (1 + E.euclidD s1 s2)) : ℤ) : ℚ) ≤ ((100 : ℤ) : ℚ) := by
        exact_mod_cast he.2
      push_cast at hs2 ht2q hd2q he2q
      push_cast
      nlinarith
  · have hz : get_alternative_similarity_scores E s1 s2 = ⟨0, 0, 0, 0, 0, 0, none⟩ := by
      rw [get_alternative_similarity_scores, if_pos (by simpa using hE)]
    rw [hz]
    norm_num

theorem alt_confidence_bounds (E : Env) (s1 s2 : String) :
    0 ≤ (get_alternative_similarity_scores E s1 s2).confidence.getD 0 ∧
      (get_alternative_similarity_scores E s1 s2).confidence.getD 0 ≤ 100 := by
  by_cases hE : E.encodeOk
  · rw [alt_scores_eval E s1 s2 hE]
    simpa using calculate_confidence_bounds _ _ _ _
  · have hz : get_alternative_similarity_scores E s1 s2 = ⟨0, 0, 0, 0, 0, 0, none⟩ := by
      rw [get_alternative_similarity_scores, if_pos (by simpa using hE)]
    rw [hz]
    norm_num

/-- C10: for all statements and every precomputed-embeddings table,
`process_comparison_pair` returns exactly the same result with the table
as with `None`: the `if precomputed_embeddings is not None: pass` branch
has no effect and all scores are recomputed from scratch. -/
theorem C10_precomputed_table_ignored (E : Env) (s1 s2 : String) (tbl : EmbTable) :
    process_comparison_pair E s1 s2 (some tbl) = process_comparison_pair E s1 s2 none := rfl

/-- C1: evaluation of `process_batch` at the failing input: on a host
without torch, a one-pair batch makes the entry point raise the
`UnboundLocalError` out of its boundary instead of returning one
placeholder result, because the announced sequential fallback is never
invoked and `results` is never assigned. -/
theorem C1_process_batch_raises :
    process_batch envNoTorch [("a", "b")] = .error unboundLocalMsg := rfl

/-- C6: evaluation of `process_batch` at the failing input: when torch is
present but the parallel pooling setup fails (model load / batched encode
raising), the entry point does not complete via `process_batch_sequential`
(which no caller invokes); it raises the `UnboundLocalError` out of its
boundary on any non-empty batch. -/
theorem C6_sequential_fallback_never_invoked :
    process_batch envPoolFail [("a", "b")] = .error unboundLocalMsg := rfl

/-- C8 counterexample: with the spaCy module absent, the keyword extractor
raises an ImportError past its boundary (the `import spacy` sits before
the `try`), so "never raises for any input text" is false. -/
theorem C8_counterexample :
    extract_keywords_spacy envNoSpacy "Der Schaden wurde gemeldet" "de"
      = .error "No module named spacy" := rfl

/-- C8 amended: provided the spaCy module itself imports, the keyword
extractor never raises: every analyzer failure inside the guarded region
falls back to the regex-tokenize/stop-word/frequency path
(`extract_keywords`), whose own failure handler returns the empty list. -/
theorem C8_no_raise_given_spacy_import (E : Env) (t lang : String)
    (h : E.spacyAvailable = true) :
    (∃ kws, extract_keywords_spacy E t lang = .ok kws) ∧
      (E.spacyDoc t = none → extract_keywords_spacy E t lang = .ok (extract_keywords t)) := by
  constructor
  · exact ⟨_, by rw [extract_keywords_spacy, if_neg (by simp [h])]⟩
  · intro hd
    rw [extract_keywords_spacy, if_neg (by simp [h]), hd]

theorem C8_no_raise_witness :
    extract_keywords_spacy baseEnv "Der Schaden wurde gemeldet" "de"
      = .ok (extract_keywords "Der Schaden wurde gemeldet") :=
  (C8_no_raise_given_spacy_import baseEnv "Der Schaden wurde gemeldet" "de" rfl).2 rfl

/-- C3 counterexample: on macOS with 32 CPU cores,
`determine_optimal_workers` returns 31, outside the claimed range
`[1, 16]` (the same `max(1, cpu-1)` expression is returned unclamped by
`get_optimal_worker_count` on its macOS and CPU paths). -/
theorem C3_counterexample :
    determine_optimal_workers envMac32 = 31 ∧
      ¬ (determine_optimal_workers envMac32 ≤ 16) := by
  constructor
  · rfl
  · decide

/-- C3 amended: both worker-count functions are total (they never raise:
every detection failure is a modelled branch) and always return at
least 1; `determine_optimal_workers` stays within `[1, 16]` on every
non-macOS path (defaulting to 4 when `nvidia-smi` detection fails or
yields no rows); but the macOS path of both functions and the CPU paths
of `get_optimal_worker_count` return `max(1, cpu_cores - 1)` unclamped
above (and `get_optimal_worker_count`'s exception default is 2, not 4). -/
theorem one_le_maxOne (x : ℤ) : 1 ≤ max 1 x := le_max_left 1 x

theorem determine_gpu_none (E : Env) (hD : ¬ E.isDarwin = true)
    (hE : E.nvidiaRows = none) : determine_optimal_workers E = 4 := by
  rw [determine_optimal_workers, if_neg hD, hE]

theorem determine_gpu_some (E : Env) (hD : ¬ E.isDarwin = true)
    (rows : List (Int × Int)) (hE : E.nvidiaRows = some rows) :
    determine_optimal_workers E =
      (if rows.isEmpty then (4 : ℤ)
       else max 1 (min 16
         (pyInt ((((rows.map (fun r => r.1 - r.2)).sum : ℤ) : ℚ) * (8/10) / 1024)))) := by
  rw [determine_optimal_workers, if_neg hD, hE]

theorem C3_worker_count_bounds (E : Env) :
    1 ≤ determine_optimal_workers E ∧ 1 ≤ get_optimal_worker_count E ∧
      (E.isDarwin = false → determine_optimal_workers E ≤ 16) := by
  refine ⟨?_, ?_, ?_⟩
  · by_cases hD : E.isDarwin = true
    · rw [determine_optimal_workers, if_pos hD]
      exact one_le_maxOne _
    · rcases hE : E.nvidiaRows with _ | rows
      · rw [determine_gpu_none E hD hE]
        norm_num
      · rw [determine_gpu_some E hD rows hE]
        split_ifs
        · norm_num
        · exact one_le_maxOne _
  · rw [get_optimal_worker_count]
    split_ifs
    all_goals try exact one_le_maxOne _
    all_goals try norm_num
    all_goals split_ifs
    all_goals try exact one_le_maxOne _
    all_goals exact le_min (le_min (one_le_maxOne _) (one_le_maxOne _)) (by norm_num)
  · intro hD
    have hD2 : ¬ E.isDarwin = true := by simp [hD]
    rcases hE : E.nvidiaRows with _ | rows
    · rw [determine_gpu_none E hD2 hE]
      norm_num
    · rw [determine_gpu_some E hD2 rows hE]
      split_ifs
      · norm_num
      · exact max_le (by norm_num) (min_le_left 16 _)

theorem C3_worker_count_bounds_witness :
    1 ≤ determine_optimal_workers baseEnv ∧ 1 ≤ get_optimal_worker_count baseEnv ∧
      determine_optimal_workers baseEnv ≤ 16 := by
  have h := C3_worker_count_bounds baseEnv
  exact ⟨h.1, h.2.1, h.2.2 rfl⟩

/-- C2 counterexample: in `compare_all_statements` a batch whose input and
output lists both consist of the single statement "aa" passes "aa" to the
encoder six times (twice in the non-deduplicated precompute over
`input_statements + output_statements`, and four more times because
`process_comparison_pair` ignores the precomputed table and re-encodes
the pair in `get_alternative_similarity_scores` and
`get_similarity_score`), not exactly once. -/
theorem C2_counterexample :
    (compare_all_encode_texts envDedup ["aa"] ["aa"]).count "aa" = 6 ∧ (6 : ℕ) ≠ 1 := by
  constructor
  · decide
  · decide

/-- C2 amended: in `process_batch_parallel` the guarantee holds: the
single batched encode call receives the deduplicated unique-statement
sequence, in which every text occurring in the batch appears exactly
once; but `compare_all_statements` encodes per occurrence (input list
plus output list, duplicates included) and then re-encodes both texts of
every pair, because `process_comparison_pair` never reads the
precomputed-embeddings table. -/
theorem C2_parallel_encode_exactly_once (pairs : List (String × String)) (t : String)
    (h : t ∈ pairs.flatMap (fun p => [p.1, p.2])) :
    (unique_statements pairs).count t = 1 := by
  rw [unique_statements, count_dedupFirst, if_pos h]

theorem C2_parallel_encode_exactly_once_witness :
    (unique_statements [("aa", "bb"), ("bb", "aa")]).count "aa" = 1 :=
  C2_parallel_encode_exactly_once [("aa", "bb"), ("bb", "aa")] "aa" (by decide)

/-- C5 counterexample: a pair whose embeddings have cosine similarity 1
(≥ 0.7) but TF-IDF similarity 0 gets a transformer-similarity signal of
12, not a value in [70, 100]: the remap is applied to the 0.3/0.7 blend
of cosine and TF-IDF, not to the cosine alone. -/
theorem C5_counterexample :
    envHighCos.cos "s" "t" = 1 ∧ (7/10 : ℚ) ≤ envHighCos.cos "s" "t" ∧
      get_similarity_score envHighCos "s" "t" = 12 ∧
      ¬ (70 ≤ get_similarity_score envHighCos "s" "t") := by
  have hw : weighted_score envHighCos "s" "t" = 3/10 := by
    rw [weighted_score]
    norm_num [envHighCos, baseEnv]
  have hs : get_similarity_score envHighCos "s" "t" = 12 := by
    rw [get_similarity_score, hw, if_neg (by norm_num), if_pos (by norm_num)]
    exact pyInt_eq_floor_cond (by norm_num) (by norm_num) (by norm_num)
  exact ⟨rfl, by norm_num [envHighCos, baseEnv], hs, by rw [hs]; norm_num⟩

/-- C5 amended: the transformer-similarity signal applies the documented
piecewise-linear remap to `weighted_score = 0.3·cosine + 0.7·tfidf`
rather than to the cosine itself: a weighted score in [0, 0.3) lands in
[0, 12), [0.3, 0.5) lands in [12, 40), [0.5, 0.7) lands in [40, 70), and
[0.7, 1] lands in [70, 100]. -/
theorem C5_weighted_remap (E : Env) (s1 s2 : String) :
    (0 ≤ weighted_score E s1 s2 → weighted_score E s1 s2 < 3/10 →
      0 ≤ get_similarity_score E s1 s2 ∧ get_similarity_score E s1 s2 < 12) ∧
    (3/10 ≤ weighted_score E s1 s2 → weighted_score E s1 s2 < 5/10 →
      12 ≤ get_similarity_score E s1 s2 ∧ get_similarity_score E s1 s2 < 40) ∧
    (5/10 ≤ weighted_score E s1 s2 → weighted_score E s1 s2 < 7/10 →
      40 ≤ get_similarity_score E s1 s2 ∧ get_similarity_score E s1 s2 < 70) ∧
    (7/10 ≤ weighted_score E s1 s2 → weighted_score E s1 s2 ≤ 1 →
      70 ≤ get_similarity_score E s1 s2 ∧ get_similarity_score E s1 s2 ≤ 100) := by
  refine ⟨?_, ?_, ?_, ?_⟩
  · intro h0 h1
    rw [get_similarity_score, if_pos h1]
    constructor
    · exact pyInt_nonneg (by nlinarith)
    · exact pyInt_lt (by push_cast; nlinarith) (by norm_num)
  · intro h0 h1
    rw [get_similarity_score, if_neg (not_lt.mpr h0), if_pos h1]
    constructor
    · exact le_pyInt (by push_cast; nlinarith)
    · exact pyInt_lt (by push_cast; nlinarith) (by norm_num)
  · intro h0 h1
    rw [get_similarity_score, if_neg (not_lt.mpr (by linarith)),
      if_neg (not_lt.mpr h0), if_pos h1]
    constructor
    · exact le_pyInt (by push_cast; nlinarith)
    · exact pyInt_lt (by push_cast; nlinarith) (by norm_num)
  · intro h0 h1
    rw [get_similarity_score, if_neg (not_lt.mpr (by linarith)),
      if_neg (not_lt.mpr (by linarith)), if_neg (not_lt.mpr h0)]
    constructor
    · exact le_pyInt (by push_cast; nlinarith)
    · exact pyInt_le (by push_cast; nlinarith) (by norm_num)

theorem C5_weighted_remap_witness :
    12 ≤ get_similarity_score envHighCos "s" "t" ∧
      get_similarity_score envHighCos "s" "t" < 40 :=
  (C5_weighted_remap envHighCos "s" "t").2.1
    (by rw [weighted_score]; norm_num [envHighCos, baseEnv])
    (by rw [weighted_score]; norm_num [envHighCos, baseEnv])

/-- C7 counterexample: in `process_comparison_with_embeddings` the
keyword sets of "alfa beta gamma delta" and "alfa beta" (4 and 2 keywords,
2 in common) get overlap percent 100, whereas the claimed formula
`|common| / max(|k1|, |k2|) × 100` gives 50: this path divides by
`len(keywords2)` instead of the max. -/
theorem C7_counterexample :
    local_extract_keywords "alfa beta gamma delta" = ["alfa", "beta", "gamma", "delta"] ∧
    local_extract_keywords "alfa beta" = ["alfa", "beta"] ∧
    (intersectFirst ["alfa", "beta", "gamma", "delta"] ["alfa", "beta"]).length = 2 ∧
    (process_comparison_with_embeddings baseEnv "alfa beta gamma delta"
        "alfa beta").overlap_percent = 100 ∧
    ((2 * 100 : ℤ) / (max 4 2 : ℤ) = 50 ∧ (100 : ℤ) ≠ 50) := by
  have hover : emb_overlap_percent ["alfa", "beta", "gamma", "delta"] ["alfa", "beta"]
      = 100 := by
    have hint : intersectFirst ["alfa", "beta", "gamma", "delta"] ["alfa", "beta"]
        = ["alfa", "beta"] := by decide
    rw [emb_overlap_percent, if_pos ⟨by decide, by decide⟩, if_pos (by decide), hint]
    exact pyInt_eq_floor_cond (by norm_num) (by norm_num) (by norm_num)
  have hproj : (process_comparison_with_embeddings baseEnv "alfa beta gamma delta"
      "alfa beta").overlap_percent
      = emb_overlap_percent (local_extract_keywords "alfa beta gamma delta")
          (local_extract_keywords "alfa beta") := rfl
  refine ⟨by decide, by decide, by decide, ?_, by decide, by decide⟩
  rw [hproj, show local_extract_keywords "alfa beta gamma delta"
      = ["alfa", "beta", "gamma", "delta"] from by decide,
    show local_extract_keywords "alfa beta" = ["alfa", "beta"] from by decide, hover]

/-- C7 amended: in the per-pair path (`process_comparison_pair`) the
keyword-overlap percent does equal `⌊|common| · 100 / max(|k1|, |k2|)⌋`
(the `min(100, ·)` clamp is redundant because `|common| ≤ |k1|`), and it
is 0 whenever either keyword list is empty; the precomputed-embeddings
path instead divides the set-intersection size by `|keywords2|`. -/
theorem C7_pair_overlap_formula (k1 k2 : List String) :
    (k1 = [] ∨ k2 = [] → pair_overlap_percent k1 k2 = 0) ∧
    (k1 ≠ [] → k2 ≠ [] →
      pair_overlap_percent k1 k2 =
        (((find_common_keywords k1 k2).length * 100 : ℕ) : ℤ)
          / ((max k1.length k2.length : ℕ) : ℤ)) := by
  constructor
  · intro h
    rw [pair_overlap_percent, if_neg (by tauto)]
  · intro h1 h2
    rw [pair_overlap_percent, if_pos ⟨h1, h2⟩]
    have hc : (find_common_keywords k1 k2).length ≤ max k1.length k2.length :=
      le_trans (List.length_filter_le _ k1) (le_max_left _ _)
    have hm : 0 < max k1.length k2.length :=
      lt_of_lt_of_le (List.length_pos.mpr h1) (le_max_left _ _)
    have hle : pyInt (((find_common_keywords k1 k2).length : ℚ)
        / ((max k1.length k2.length : ℕ) : ℚ) * 100) ≤ 100 := by
      refine pyInt_le ?_ (by norm_num)
      have hm2 : (0 : ℚ) < ((max k1.length k2.length : ℕ) : ℚ) := by exact_mod_cast hm
      have hc2 : ((find_common_keywords k1 k2).length : ℚ)
          ≤ ((max k1.length k2.length : ℕ) : ℚ) := by exact_mod_cast hc
      rw [div_mul_eq_mul_div, div_le_iff₀ hm2,
        show (((100 : ℤ)) : ℚ) = 100 from by norm_num]
      nlinarith [hc2, hm2]
    rw [min_eq_right hle, pyInt_div_nat]

theorem C7_pair_overlap_formula_witness :
    pair_overlap_percent ["haus"] [] = 0 ∧
      pair_overlap_percent ["haus"] ["haus", "dach"] =
        (((find_common_keywords ["haus"] ["haus", "dach"]).length * 100 : ℕ) : ℤ)
          / ((max 1 2 : ℕ) : ℤ) := by
  refine ⟨(C7_pair_overlap_formula ["haus"] []).1 (Or.inr rfl), ?_⟩
  exact (C7_pair_overlap_formula ["haus"] ["haus", "dach"]).2
    (by decide) (by decide)

/-- C4 counterexample: with embeddings of cosine similarity −1 and a
failing TF-IDF vectorizer, `process_comparison_pair` produces a
ComparisonResult whose `combined_score` is −2, outside the claimed
range [0, 100] (no clamp exists on this path and the remapped transformer
signal is −12). -/
theorem C4_counterexample :
    (process_comparison_pair envNegCos "aa" "bb" none).combined_score = -2 ∧
      ¬ (0 ≤ (process_comparison_pair envNegCos "aa" "bb" none).combined_score) := by
  have hk1 : extract_keywords_spacy envNegCos "aa" "de" = .ok [] := rfl
  have hk2 : extract_keywords_spacy envNegCos "bb" "de" = .ok [] := rfl
  have hw : weighted_score envNegCos "aa" "bb" = -(3/10) := by
    rw [weighted_score]
    norm_num [envNegCos, baseEnv]
  have hstd : get_similarity_score envNegCos "aa" "bb" = -12 := by
    rw [get_similarity_score, hw, if_pos (by norm_num)]
    exact pyInt_eq_ceil_cond (by norm_num) (by norm_num) (by norm_num)
  have hdom : get_domain_similarity envNegCos "aa" "bb" = 0 := by decide
  have heu : pyInt (100 / (1 + envNegCos.euclidD "aa" "bb")) = 33 := by
    rw [show envNegCos.euclidD "aa" "bb" = 2 from rfl]
    exact pyInt_eq_floor_cond (by norm_num) (by norm_num) (by norm_num)
  have htf : pyInt ((envNegCos.tfidf "aa" "bb").getD 0 * 100) = 0 := by
    rw [show (envNegCos.tfidf "aa" "bb").getD 0 = 0 from rfl]
    exact pyInt_eq_floor_cond (by norm_num) (by norm_num) (by norm_num)
  have hcomb : (get_alternative_similarity_scores envNegCos "aa" "bb").combined = -2 := by
    rw [alt_scores_eval envNegCos "aa" "bb" rfl]
    show pyInt ((5/10) * ((get_similarity_score envNegCos "aa" "bb" : ℤ) : ℚ)
      + (3/10) * ((pyInt ((envNegCos.tfidf "aa" "bb").getD 0 * 100) : ℤ) : ℚ)
      + (1/10) * ((get_domain_similarity envNegCos "aa" "bb" : ℤ) : ℚ)
      + (1/10) * ((pyInt (100 / (1 + envNegCos.euclidD "aa" "bb")) : ℤ) : ℚ)) = -2
    rw [hstd, htf, hdom, heu]
    exact pyInt_eq_ceil_cond (by push_cast; norm_num) (by push_cast; norm_num)
      (by push_cast; norm_num)
  have hres : (process_comparison_pair envNegCos "aa" "bb" none).combined_score
      = (get_alternative_similarity_scores envNegCos "aa" "bb").combined := by
    rw [process_pair_eval envNegCos "aa" "bb" none [] [] hk1 hk2]
  rw [hres, hcomb]
  norm_num

/-- C4 amended: on the per-pair path, under the mathematical constraints
on the external signals (cosines in [−1, 1], TF-IDF cosine in [0, 1],
distances nonnegative), every result has `confidence ∈ [0, 100]`,
`combined_score ≤ 100` (and ≥ −6), and — on every non-error result — an
interpretation that is the deterministic five-label ascending-threshold
function of `combined_score`; but `combined_score` may drop below 0 when
the embedding cosine is negative, and the precomputed-embeddings path
uses a different four-label scheme, so the label set is not one fixed set
across paths. -/
theorem C4_result_ranges (E : Env) (s1 s2 : String) (pre : Option EmbTable)
    (hc1 : -1 ≤ E.cos s1 s2) (hc2 : E.cos s1 s2 ≤ 1)
    (ht1 : 0 ≤ (E.tfidf s1 s2).getD 0) (ht2 : (E.tfidf s1 s2).getD 0 ≤ 1)
    (hd : 0 ≤ E.euclidD s1 s2) :
    (-6 ≤ (process_comparison_pair E s1 s2 pre).combined_score ∧
      (process_comparison_pair E s1 s2 pre).combined_score ≤ 100) ∧
    (0 ≤ (process_comparison_pair E s1 s2 pre).confidence ∧
      (process_comparison_pair E s1 s2 pre).confidence ≤ 100) ∧
    ((process_comparison_pair E s1 s2 pre).err = none →
      (process_comparison_pair E s1 s2 pre).interpretation =
        get_interpretation (process_comparison_pair E s1 s2 pre).combined_score) := by
  by_cases hsp : E.spacyAvailable = true
  · obtain ⟨kk1, hk1⟩ : ∃ k, extract_keywords_spacy E s1 "de" = .ok k :=
      ⟨_, by rw [extract_keywords_spacy, if_neg (by simp [hsp])]⟩
    obtain ⟨kk2, hk2⟩ : ∃ k, extract_keywords_spacy E s2 "de" = .ok k :=
      ⟨_, by rw [extract_keywords_spacy, if_neg (by simp [hsp])]⟩
    rw [process_pair_eval E s1 s2 pre kk1 kk2 hk1 hk2]
    exact ⟨alt_combined_bounds E s1 s2 hc1 hc2 ht1 ht2 hd,
      alt_confidence_bounds E s1 s2, fun _ => rfl⟩
  · have hres : process_comparison_pair E s1 s2 pre
        = pairErrorResult "No module named spacy" := by
      rw [process_comparison_pair, extract_keywords_spacy, if_pos (by simpa using hsp)]
    rw [hres]
    refine ⟨⟨by norm_num [pairErrorResult], by norm_num [pairErrorResult]⟩,
      ⟨by norm_num [pairErrorResult], by norm_num [pairErrorResult]⟩, ?_⟩
    intro h
    simp [pairErrorResult] at h

theorem C4_result_ranges_witness :
    (-6 ≤ (process_comparison_pair baseEnv "aa" "bb" none).combined_score ∧
      (process_comparison_pair baseEnv "aa" "bb" none).combined_score ≤ 100) ∧
    (0 ≤ (process_comparison_pair baseEnv "aa" "bb" none).confidence ∧
      (process_comparison_pair baseEnv "aa" "bb" none).confidence ≤ 100) ∧
    ((process_comparison_pair baseEnv "aa" "bb" none).err = none →
      (process_comparison_pair baseEnv "aa" "bb" none).interpretation =
        get_interpretation (process_comparison_pair baseEnv "aa" "bb" none).combined_score) :=
  C4_result_ranges baseEnv "aa" "bb" none (by norm_num [baseEnv])
    (by norm_num [baseEnv]) (by norm_num [baseEnv]) (by norm_num [baseEnv])
    (by norm_num [baseEnv])

theorem self_domain_nonempty (E : Env) (a : String) (hE : E.encodeOk = true)
    (hdc : E.domainCos a a = 1)
    (h : (domain_unique_words E a).isEmpty = false) :
    get_domain_similarity E a a = 69 ∨ get_domain_similarity E a a = 99 := by
  rw [get_domain_similarity, if_neg (by simp [h]), if_neg (by simp [hE])]
  have hbase : (if E.domainCos a a > 7/10 then pyInt ((E.domainCos a a - 7/10) * 333)
      else pyInt (E.domainCos a a * 70)) = 99 := by
    rw [hdc, if_pos (by norm_num)]
    exact pyInt_eq_floor_cond (by norm_num) (by norm_num) (by norm_num)
  simp only [domain_score_core, hbase]
  by_cases hpen :
    ((((insuranceTerms.filter
          (fun t => t ∈ (domain_unique_words E a).map lowerStr)).length : ℚ)
        / insuranceTerms.length > 2/10 ∧
      ((insuranceTerms.filter
          (fun t => t ∈ (domain_unique_words E a).map lowerStr)).length : ℚ)
        / insuranceTerms.length > 2/10) ∨
     (((techTerms.filter
          (fun t => t ∈ (domain_unique_words E a).map lowerStr)).length : ℚ)
        / techTerms.length > 2/10 ∧
      ((techTerms.filter
          (fun t => t ∈ (domain_unique_words E a).map lowerStr)).length : ℚ)
        / techTerms.length > 2/10))
  · left
    rw [if_pos hpen]
    have h69 : pyInt (((99 : ℤ) : ℚ) * (7/10)) = 69 :=
      pyInt_eq_floor_cond (by push_cast; norm_num) (by push_cast; norm_num)
        (by push_cast; norm_num)
    rw [h69]
    decide
  · right
    rw [if_neg hpen]
    decide

theorem self_alt_combined (E : Env) (a : String) (hE : E.encodeOk = true)
    (hcos : E.cos a a = 1) (htf : E.tfidf a a = some 1) (heu : E.euclidD a a = 0)
    (hdc : E.domainCos a a = 1) :
    90 ≤ (get_alternative_similarity_scores E a a).combined ∧
      ((domain_unique_words E a).isEmpty = false →
        95 ≤ (get_alternative_similarity_scores E a a).combined) := by
  have hstd : get_similarity_score E a a = 100 := by
    have hw : weighted_score E a a = 1 := by
      rw [weighted_score, hcos, htf]
      norm_num
    rw [get_similarity_score, hw, if_neg (by norm_num), if_neg (by norm_num),
      if_neg (by norm_num)]
    exact pyInt_eq_floor_cond (by norm_num) (by norm_num) (by norm_num)
  have heuS : pyInt (100 / (1 + E.euclidD a a)) = 100 := by
    rw [heu]
    exact pyInt_eq_floor_cond (by norm_num) (by norm_num) (by norm_num)
  have htfS : pyInt ((E.tfidf a a).getD 0 * 100) = 100 := by
    rw [htf]
    simp only [Option.getD_some]
    exact pyInt_eq_floor_cond (by norm_num) (by norm_num) (by norm_num)
  have hcombEq : (get_alternative_similarity_scores E a a).combined
      = pyInt (90 + ((get_domain_similarity E a a : ℤ) : ℚ) / 10) := by
    rw [alt_scores_eval E a a hE]
    show pyInt ((5/10) * ((get_similarity_score E a a : ℤ) : ℚ)
      + (3/10) * ((pyInt ((E.tfidf a a).getD 0 * 100) : ℤ) : ℚ)
      + (1/10) * ((get_domain_similarity E a a : ℤ) : ℚ)
      + (1/10) * ((pyInt (100 / (1 + E.euclidD a a)) : ℤ) : ℚ)) = _
    rw [hstd, htfS, heuS]
    congr 1
    push_cast
    ring
  constructor
  · rw [hcombEq]
    refine le_pyInt ?_
    have h0 : (0 : ℚ) ≤ ((get_domain_similarity E a a : ℤ) : ℚ) := by
      exact_mod_cast get_domain_similarity_nonneg E a a
    push_cast
    linarith
  · intro hne
    rw [hcombEq]
    rcases self_domain_nonempty E a hE hdc hne with h69 | h99
    · rw [h69]
      exact le_pyInt (by push_cast; norm_num)
    · rw [h99]
      exact le_pyInt (by push_cast; norm_num)

theorem self_matches_length (E : Env) (K : List String)
    (hkw : ∀ k, E.kwCos k k = 1)
    (hgood : ∀ k ∈ K, 3 ≤ k.length ∧ lowerStr k ∉ semanticStopList) :
    K.length ≤ (find_semantic_keyword_overlap E K K).length := by
  simp only [find_semantic_keyword_overlap, length_insertionSort,
    List.length_flatten, List.map_map]
  refine le_trans (le_of_eq (List.length_map K _).symm) (length_le_sum ?_)
  intro n hn
  rw [List.mem_map] at hn
  obtain ⟨k, hk, rfl⟩ := hn
  obtain ⟨h3, hst⟩ := hgood k hk
  simp only [Function.comp_apply]
  rw [if_neg (by omega)]
  have hmem : (k, k, E.kwCos k k) ∈ K.filterMap (fun k2 =>
      if k2.length < 3 then none
      else if lowerStr k ∈ semanticStopList ∨ lowerStr k2 ∈ semanticStopList then none
      else if E.kwCos k k2 > 17/20 then some (k, k2, E.kwCos k k2)
      else none) := by
    refine List.mem_filterMap.mpr ⟨k, hk, ?_⟩
    rw [if_neg (by omega), if_neg (by simp [hst]), if_pos (by rw [hkw k]; norm_num)]
  have hpos := List.length_pos.mpr (List.ne_nil_of_mem hmem)
  omega

/-- C9 counterexample: for the statement "es ist gut" compared with
itself under a fixed encoder (identical embeddings, all self-cosines 1,
self-distances 0, TF-IDF 1), the combined score is exactly 90, below the
claimed 95: the statement has no content word longer than 3 characters,
so the domain signal contributes 0. -/
theorem C9_counterexample :
    ∃ r, compare_statements envSelf "es ist gut" "es ist gut" = .ok r ∧
      r.combined_score = 90 ∧ ¬ (95 ≤ r.combined_score) := by
  have hmx : ¬ max (extract_semantic_keywords envSelf "es ist gut"
        (detect_language envSelf "es ist gut")).length
      (extract_semantic_keywords envSelf "es ist gut"
        (detect_language envSelf "es ist gut")).length = 0 := by decide
  have hcomb : (get_alternative_similarity_scores envSelf "es ist gut"
      "es ist gut").combined = 90 := by
    have hstd : get_similarity_score envSelf "es ist gut" "es ist gut" = 100 := by
      have hw : weighted_score envSelf "es ist gut" "es ist gut" = 1 := by
        rw [weighted_score]
        norm_num [envSelf, baseEnv]
      rw [get_similarity_score, hw, if_neg (by norm_num), if_neg (by norm_num),
        if_neg (by norm_num)]
      exact pyInt_eq_floor_cond (by norm_num) (by norm_num) (by norm_num)
    have heuS : pyInt (100 / (1 + envSelf.euclidD "es ist gut" "es ist gut")) = 100 := by
      rw [show envSelf.euclidD "es ist gut" "es ist gut" = 0 from rfl]
      exact pyInt_eq_floor_cond (by norm_num) (by norm_num) (by norm_num)
    have htfS : pyInt ((envSelf.tfidf "es ist gut" "es ist gut").getD 0 * 100) = 100 := by
      rw [show (envSelf.tfidf "es ist gut" "es ist gut").getD 0 = 1 from rfl]
      exact pyInt_eq_floor_cond (by norm_num) (by norm_num) (by norm_num)
    have hdom : get_domain_similarity envSelf "es ist gut" "es ist gut" = 0 := by decide
    rw [alt_scores_eval envSelf "es ist gut" "es ist gut" rfl]
    show pyInt ((5/10) * ((get_similarity_score envSelf "es ist gut" "es ist gut" : ℤ) : ℚ)
      + (3/10) * ((pyInt ((envSelf.tfidf "es ist gut" "es ist gut").getD 0 * 100) : ℤ) : ℚ)
      + (1/10) * ((get_domain_similarity envSelf "es ist gut" "es ist gut" : ℤ) : ℚ)
      + (1/10) * ((pyInt (100 / (1 + envSelf.euclidD "es ist gut" "es ist gut")) : ℤ) : ℚ))
      = 90
    rw [hstd, htfS, heuS, hdom]
    exact pyInt_eq_floor_cond (by push_cast; norm_num) (by push_cast; norm_num)
      (by push_cast; norm_num)
  refine ⟨_, compare_statements_eval envSelf "es ist gut" "es ist gut" rfl hmx, hcomb, ?_⟩
  show ¬ (95 ≤ (get_alternative_similarity_scores envSelf "es ist gut" "es ist gut").combined)
  rw [hcomb]
  norm_num

/-- C9 amended: comparing a statement with itself under a fixed encoder
(identical embeddings, hence self-cosine 1, self-distances 0, identical
TF-IDF documents) yields `combined_score ≥ 90` — reaching the claimed 95
only when the statement has a non-empty content-word list (then the score
is 96 or 99) — together with the top interpretation label
"nearly identical", and `overlap_percent = 100` provided the statement
has at least one extracted keyword and every extracted keyword has
length ≥ 3 and is off the semantic stop-list. -/
theorem C9_self_comparison (E : Env) (a : String)
    (hE : E.encodeOk = true) (hcos : E.cos a a = 1) (htf : E.tfidf a a = some 1)
    (heu : E.euclidD a a = 0) (hdc : E.domainCos a a = 1)
    (hkw : ∀ k, E.kwCos k k = 1)
    (hK : extract_semantic_keywords E a (detect_language E a) ≠ [])
    (hgood : ∀ k ∈ extract_semantic_keywords E a (detect_language E a),
      3 ≤ k.length ∧ lowerStr k ∉ semanticStopList) :
    ∃ r, compare_statements E a a = .ok r ∧
      90 ≤ r.combined_score ∧
      ((domain_unique_words E a).isEmpty = false → 95 ≤ r.combined_score) ∧
      r.interpretation = "nearly identical" ∧
      r.keyword_overlap_percent = 100 := by
  have hKpos : 0 < (extract_semantic_keywords E a (detect_language E a)).length :=
    List.length_pos.mpr hK
  have hmx : ¬ max (extract_semantic_keywords E a (detect_language E a)).length
      (extract_semantic_keywords E a (detect_language E a)).length = 0 := by
    rw [max_self]
    omega
  have hS := self_alt_combined E a hE hcos htf heu hdc
  refine ⟨_, compare_statements_eval E a a hE hmx, hS.1, hS.2, ?_, ?_⟩
  · show (if (get_alternative_similarity_scores E a a).combined < 10 then
        "completely different"
      else if (get_alternative_similarity_scores E a a).combined < 25 then
        "mostly different"
      else if (get_alternative_similarity_scores E a a).combined < 50 then
        "somewhat similar"
      else if (get_alternative_similarity_scores E a a).combined < 75 then
        "very similar"
      else "nearly identical") = "nearly identical"
    have h90 := hS.1
    rw [if_neg (by omega), if_neg (by omega), if_neg (by omega), if_neg (by omega)]
  · show min 100 (pyInt
      (((find_semantic_keyword_overlap E
          (extract_semantic_keywords E a (detect_language E a))
          (extract_semantic_keywords E a (detect_language E a))).length : ℚ)
        / ((max (extract_semantic_keywords E a (detect_language E a)).length
            (extract_semantic_keywords E a (detect_language E a)).length : ℕ) : ℚ)
        * 100)) = 100
    have hm := self_matches_length E (extract_semantic_keywords E a (detect_language E a))
      hkw hgood
    have h100 : (100 : ℤ) ≤ pyInt
        (((find_semantic_keyword_overlap E
            (extract_semantic_keywords E a (detect_language E a))
            (extract_semantic_keywords E a (detect_language E a))).length : ℚ)
          / ((max (extract_semantic_keywords E a (detect_language E a)).length
              (extract_semantic_keywords E a (detect_language E a)).length : ℕ) : ℚ)
          * 100) := by
      refine le_pyInt ?_
      rw [max_self]
      have hp : (0 : ℚ)
          < ((extract_semantic_keywords E a (detect_language E a)).length : ℚ) := by
        exact_mod_cast hKpos
      have hm2 : ((extract_semantic_keywords E a (detect_language E a)).length : ℚ)
          ≤ ((find_semantic_keyword_overlap E
              (extract_semantic_keywords E a (detect_language E a))
              (extract_semantic_keywords E a (detect_language E a))).length : ℚ) := by
        exact_mod_cast hm
      rw [div_mul_eq_mul_div, le_div_iff₀ hp,
        show (((100 : ℤ)) : ℚ) = 100 from by norm_num]
      nlinarith [hp, hm2]
    exact min_eq_left h100

theorem C9_self_comparison_witness :
    ∃ r, compare_statements envSelf "haus" "haus" = .ok r ∧
      90 ≤ r.combined_score ∧
      ((domain_unique_words envSelf "haus").isEmpty = false → 95 ≤ r.combined_score) ∧
      r.interpretation = "nearly identical" ∧
      r.keyword_overlap_percent = 100 :=
  C9_self_comparison envSelf "haus" rfl rfl rfl rfl rfl (fun _ => rfl)
    (by decide) (by decide)
